import Mathlib

/-
Verification of the ipo-alerts repository (two Python scripts:
ipo_alerts_auto.py, the auto-fetch pipeline, and ipo_alerts.py, the
manual-CSV pipeline) against its natural-language specification.

Modelling conventions, shared by all definitions below:
- Prices and gains are modelled as rationals (ℚ); the gain formula
  (ltp - issue)/issue * 100 is exact arithmetic in both the spec and
  this model.
- Network I/O is modelled by oracle parameters: each function that the
  source lets talk to the network takes the upstream's behaviour as an
  explicit argument, and returns the number of outbound calls it makes
  alongside its result.
- Python code whose every raise site is wrapped in try/except is
  modelled as a total Lean function (it cannot raise past its
  boundary); Python code with unguarded raise sites is modelled in
  `Except PyError`, where `.error` means an exception escapes.
- `pd.to_datetime` is an external library call; it is modelled as an
  oracle `String → Option Nat` (dates are abstract day codes; `none`
  means the parse raises, which every caller catches).
-/

set_option maxHeartbeats 1000000

namespace IpoAlerts

/-- A raw `issue_price` (or `test_ltp`) field value: either a value that
Python `float()` accepts (modelled as a rational; this includes numeric
strings) or a non-numeric value that `float()` rejects with
`ValueError`. A missing field or a NaN is represented by `Option.none`
at the use sites, matching the `pd.isna` checks in the source. -/
inductive PVal where
  | num : ℚ → PVal
  | str : String → PVal
deriving DecidableEq, Repr

/-- Python `float(v)`: succeeds exactly on numeric values. -/
def PVal.toNum : PVal → Option ℚ
  | .num q => some q
  | .str _ => none

/-- A candidate listing record, the dict shape produced by every source
adapter and consumed by the evaluators: keys symbol, exchange,
issue_price, listing_date, plus the optional test_ltp override column.
`issue_price = none` covers both an absent value and NaN. -/
structure Rec where
  symbol : String
  exchange : String
  issue_price : Option PVal
  listing_date : Option Nat
  test_ltp : Option ℚ
deriving DecidableEq, Repr

/-- Exceptions that ipo_alerts.py (the manual variant, which has no
try/except) can let escape from the modelled fragments. -/
inductive PyError where
  | valueError
  | zeroDivisionError
  | providerError
deriving DecidableEq, Repr

/-- Python truthiness of an optional string config value (`os.getenv`
result): `None` and the empty string are falsy. Used by the
`if not KEY` / `if not TOKEN` guards in the source. -/
def truthy : Option String → Bool
  | none => false
  | some s => !s.isEmpty

/-- Python `str.upper()`, character by character. -/
def pyUpper (s : String) : String :=
  String.mk (s.data.map Char.toUpper)

/-- Outcome of one call to the yfinance market-data provider for one
ticker: either the call raises (`failure`) or it returns the day's
one-minute bars, modelled as the list of values of the Close column
(empty list = `df.empty`). -/
inductive ProviderResult where
  | failure : ProviderResult
  | ok : List ℚ → ProviderResult
deriving DecidableEq, Repr

/-- Ticker mapping shared verbatim by get_ltp in ipo_alerts_auto.py
(lines 40-45) and ipo_alerts.py (line 18): NSE gets the ".NS" suffix,
BSE gets ".BO", anything else is passed through unchanged. -/
def mapTicker (symbol exchange : String) : String :=
  if pyUpper exchange = "NSE" then symbol ++ ".NS"
  else if pyUpper exchange = "BSE" then symbol ++ ".BO"
  else symbol

/-- get_ltp of ipo_alerts_auto.py (lines 38-54): the provider call and
the trailing `float(df['Close'].iloc[-1])` sit inside try/except, so
every failure degrades to `none`; an empty history also yields `none`. -/
def get_ltp_auto (symbol exchange : String)
    (provider : String → ProviderResult) : Option ℚ :=
  match provider (mapTicker symbol exchange) with
  | .failure => none
  | .ok h => h.getLast?

/-- get_ltp of ipo_alerts.py (lines 17-22): same ticker mapping and
empty-history handling, but there is no try/except, so a provider
failure escapes as an exception. -/
def get_ltp_manual (symbol exchange : String)
    (provider : String → ProviderResult) : Except PyError (Option ℚ) :=
  match provider (mapTicker symbol exchange) with
  | .failure => .error .providerError
  | .ok h => .ok h.getLast?

/-- send_telegram of ipo_alerts_auto.py (lines 29-36): with a missing
(or empty) bot token or chat id it returns False without any network
call; otherwise it performs exactly one POST and returns
`status_code == 200`. Result: (reported success, number of outbound
calls); `status` is the transport status of the POST when it happens. -/
def send_telegram_auto (token chatId : Option String) (status : Nat) :
    Bool × Nat :=
  if !(truthy token) || !(truthy chatId) then (false, 0)
  else (status == 200, 1)

/-- send_telegram of ipo_alerts.py (lines 10-15): same guard, but the
function returns None on every path (it reports no success indicator),
so only the number of outbound calls is observable. -/
def send_telegram_manual (token chatId : Option String) : Nat :=
  if !(truthy token) || !(truthy chatId) then 0 else 1

/-- One item of a JSON-API payload after alias resolution: the source
reads the date under several aliases and then tries `pd.to_datetime`
(here already resolved to `date : Option Nat`, `none` = unparseable,
which makes the loop `continue`), the symbol with an `or ""` default
(already applied), and the price under several aliases with a final
`or None` (already resolved). -/
structure ApiItem where
  date : Option Nat
  symbol : String
  price : Option PVal
deriving DecidableEq, Repr

/-- Upstream behaviour of one JSON-API fetch: the request/JSON-decode
raises (`failure`, covering network errors and malformed payloads) or
yields a list of items. -/
inductive ApiUpstream where
  | failure : ApiUpstream
  | payload : List ApiItem → ApiUpstream

/-- The per-item body of both API fetch loops: skip the item when its
date is unparseable, otherwise emit a record with exchange defaulted
to "NSE" and no test_ltp. -/
def apiItemToRec (it : ApiItem) : Option Rec :=
  match it.date with
  | none => none
  | some d => some ⟨it.symbol, "NSE", it.price, some d, none⟩

/-- fetch_fmp_ipos (ipo_alerts_auto.py lines 58-83): with no API key it
returns [] before any network call; otherwise one GET is made, any
failure is caught and degrades to [], and a good payload is mapped
item-wise. Result: (records, number of outbound calls). -/
def fetch_fmp_ipos (key : Option String) (u : ApiUpstream) :
    List Rec × Nat :=
  if !(truthy key) then ([], 0)
  else
    match u with
    | .failure => ([], 1)
    | .payload items => (items.filterMap apiItemToRec, 1)

/-- fetch_finnhub_ipos (ipo_alerts_auto.py lines 85-110): structurally
identical to fetch_fmp_ipos after alias resolution — key guard, one
GET, catch-all to [], item-wise mapping. -/
def fetch_finnhub_ipos (key : Option String) (u : ApiUpstream) :
    List Rec × Nat :=
  if !(truthy key) then ([], 0)
  else
    match u with
    | .failure => ([], 1)
    | .payload items => (items.filterMap apiItemToRec, 1)

/-- Upstream behaviour of the NSE scrape: the session/GET/parse raises
(`failure`), or the page parses and `soup.find("table")` yields no
table (`page none`) or one table given as its rows, each row the list
of its cells' whitespace-stripped texts (`get_text(strip=True)`). -/
inductive NseUpstream where
  | failure : NseUpstream
  | page : Option (List (List String)) → NseUpstream

/-- Upstream behaviour of the BSE scrape: the GET/parse raises
(`failure`), or the page parses into a list of tables, each a list of
rows of stripped cell texts. -/
inductive BseUpstream where
  | failure : BseUpstream
  | page : List (List (List String)) → BseUpstream

/-- Python `s.split()[0]` on stripped cell text: the first
whitespace-separated token, `none` when there is no token (on which the
source raises IndexError). -/
def firstTok (s : String) : Option String :=
  let cs := s.data.dropWhile (fun c => c = ' ')
  if cs.isEmpty then none
  else some (String.mk (cs.takeWhile (fun c => c ≠ ' ')))

/-- The per-row body of the NSE scrape loop (lines 130-142): rows with
fewer than 4 cells are skipped; the symbol is `cols[1].split()[0] if
cols[1] else ""` (for stripped text a non-empty cell always has a
token); issue_price is the literal None; the listing date is
`pd.to_datetime(cols[3])` under a per-row try (`none` = unparseable). -/
def nseParseRow (parseDate : String → Option Nat) (cols : List String) :
    Option Rec :=
  if cols.length < 4 then none
  else
    let c1 := cols.getD 1 ""
    let sym := if c1.isEmpty then "" else (firstTok c1).getD ""
    some ⟨sym, "NSE", none, parseDate (cols.getD 3 ""), none⟩

/-- scrape_nse_upcoming (ipo_alerts_auto.py lines 112-147): everything
sits in one try/except returning [] on failure; with no table the empty
list is returned; otherwise the header row is dropped and the remaining
rows are parsed best-effort. -/
def scrape_nse_upcoming (parseDate : String → Option Nat)
    (u : NseUpstream) : List Rec :=
  match u with
  | .failure => []
  | .page none => []
  | .page (some rows) => (rows.drop 1).filterMap (nseParseRow parseDate)

/-- The BSE scrape row loop (lines 159-171), over the concatenation of
all tables' non-header rows: an empty row is skipped; otherwise the
symbol is `cols[0].split()[0]` — which raises IndexError when the first
cell has no token, aborting the whole loop (the outer except then
returns []) — issue_price is the literal None, and the listing date is
parsed from the last cell under a per-row try. -/
def bseParseRows (parseDate : String → Option Nat) :
    List (List String) → Except Unit (List Rec)
  | [] => .ok []
  | cols :: rest =>
    if cols.isEmpty then bseParseRows parseDate rest
    else
      match firstTok (cols.headD "") with
      | none => .error ()
      | some sym =>
        match bseParseRows parseDate rest with
        | .error e => .error e
        | .ok recs =>
          .ok (⟨sym, "BSE", none,
                parseDate ((cols.getLast?).getD ""), none⟩ :: recs)

/-- scrape_bse_public_issues (ipo_alerts_auto.py lines 149-176): one
try/except returning [] on failure, including when a malformed row
raises inside the loop. -/
def scrape_bse_public_issues (parseDate : String → Option Nat)
    (u : BseUpstream) : List Rec :=
  match u with
  | .failure => []
  | .page tables =>
    match bseParseRows parseDate (tables.flatMap (fun t => t.drop 1)) with
    | .error _ => []
    | .ok recs => recs

/-- Which adapters a collect_ipos run invoked. -/
structure CollectTrace where
  fmpCalled : Bool
  finnhubCalled : Bool
  nseCalled : Bool
  bseCalled : Bool
deriving DecidableEq, Repr

/-- The normalization tail of collect_ipos (lines 191-198): an empty
collection becomes an empty frame; otherwise rows lacking a parseable
listing_date are dropped (`dropna`) and the date coercion is the
identity on the already-parsed dates. -/
def normalize (rs : List Rec) : List Rec :=
  rs.filter (fun r => r.listing_date.isSome)

/-- collect_ipos (ipo_alerts_auto.py lines 180-199). The adapter-result
parameters give what each fetch function would return were it invoked
(each already embeds its own key guard); `fmpKey`/`finnhubKey` are the
truthiness of the two configured keys guarding the invocations.
Returns the normalized record set and which adapters were invoked. -/
def collect_ipos (fmpKey finnhubKey : Bool)
    (fmpRes finnhubRes nseRes bseRes : List Rec) :
    List Rec × CollectTrace :=
  let s1 : List Rec × Bool := if fmpKey then (fmpRes, true) else ([], false)
  let s2 : List Rec × Bool :=
    if s1.1.isEmpty && finnhubKey then (finnhubRes, true) else (s1.1, false)
  let s3 : List Rec × Bool :=
    if s2.1.isEmpty then (nseRes ++ bseRes, true) else (s2.1, false)
  (normalize s3.1, ⟨s1.2, s2.2, s3.2, s3.2⟩)

/-- The reference-file step of main (ipo_alerts_auto.py lines 206-208):
given the normalized collection `df` and the prior contents of ipos.csv
(`none` = file absent), the file is overwritten exactly when `df` is
non-empty. Result: (contents after the run, whether a write occurred). -/
def saveStep (df : List Rec) (prior : Option (List Rec)) :
    Option (List Rec) × Bool :=
  if df.isEmpty then (prior, false) else (some df, true)

/-- Per-record outcome of the auto-fetch evaluation loop. -/
inductive AutoOutcome where
  | skippedNoLtp : AutoOutcome
  | skippedNoIssue : AutoOutcome
  | calcError : AutoOutcome
  | evaluated : ℚ → Bool → AutoOutcome
deriving DecidableEq, Repr

/-- Whether an outcome dispatched a notification (`send_telegram` was
invoked for the record). -/
def AutoOutcome.notified : AutoOutcome → Bool
  | .evaluated _ n => n
  | _ => false

/-- The LTP resolution of the auto loop (ipo_alerts_auto.py lines
225-235): a present, non-NaN test_ltp is used verbatim with no provider
call; otherwise get_ltp is tried up to twice, stopping at the first
non-None answer. `o1`, `o2` are what get_ltp returns on the first and
second attempt. Result: (ltp, number of provider calls). -/
def resolveLtp (r : Rec) (o1 o2 : Option ℚ) : Option ℚ × Nat :=
  match r.test_ltp with
  | some v => (some v, 0)
  | none =>
    match o1 with
    | some v => (some v, 1)
    | none => (o2, 2)

/-- One iteration of the evaluation loop of ipo_alerts_auto.py's main
(lines 213-251) on a record already filtered to today: NaN/None issue
is noted (line 218) but the LTP is resolved first; a missing LTP skips
the record, then a missing issue skips it, then `float(issue)` and the
division run inside try/except (a non-numeric issue or a zero issue —
ZeroDivisionError — become a caught calculation error); finally the
alert fires iff MIN_GAIN ≤ gain ≤ MAX_GAIN. Result: (outcome, number
of provider calls). -/
def evalRecordAuto (minGain maxGain : ℚ) (r : Rec) (o1 o2 : Option ℚ) :
    AutoOutcome × Nat :=
  match resolveLtp r o1 o2 with
  | (none, c) => (.skippedNoLtp, c)
  | (some l, c) =>
    match r.issue_price with
    | none => (.skippedNoIssue, c)
    | some pv =>
      match pv.toNum with
      | none => (.calcError, c)
      | some i =>
        if i = 0 then (.calcError, c)
        else
          let gain := (l - i) / i * 100
          (.evaluated gain (decide (minGain ≤ gain ∧ gain ≤ maxGain)), c)

/-- Per-record outcome of the manual evaluation loop. `evaluatedNaN`
is the path where `float` of a NaN issue price yields NaN: the gain is
NaN, every band comparison is False, no alert fires and nothing is
raised. -/
inductive ManualOutcome where
  | skippedNoLtp : ManualOutcome
  | evaluatedNaN : ManualOutcome
  | evaluated : ℚ → Bool → ManualOutcome
deriving DecidableEq, Repr

/-- Whether a manual outcome dispatched a notification. -/
def ManualOutcome.notified : ManualOutcome → Bool
  | .evaluated _ n => n
  | _ => false

/-- Python `float(r['issue_price'])` in ipo_alerts.py line 34: a
non-numeric value raises ValueError; a NaN (missing CSV cell) floats
to NaN, kept here as `none`. -/
def floatIssue : Option PVal → Except PyError (Option ℚ)
  | some (.str _) => .error .valueError
  | some (.num i) => .ok (some i)
  | none => .ok none

/-- The LTP resolution of ipo_alerts.py line 35: a present, non-NaN
test_ltp is used verbatim with no provider call; otherwise get_ltp is
called once, and its exceptions propagate. -/
def resolveLtpManual (r : Rec) (provider : String → ProviderResult) :
    Except PyError (Option ℚ × Nat) :=
  match r.test_ltp with
  | some v => .ok (some v, 0)
  | none =>
    match get_ltp_manual r.symbol r.exchange provider with
    | .error e => .error e
    | .ok p => .ok (p, 1)

/-- One iteration of the evaluation loop of ipo_alerts.py's main (lines
33-42) on a record already filtered to today: `float(issue_price)` runs
first (unguarded), then the LTP is resolved (unguarded), a missing LTP
skips the record, and the gain division is unguarded — a zero issue
price raises ZeroDivisionError out of the program. -/
def evalRecordManual (minGain maxGain : ℚ) (r : Rec)
    (provider : String → ProviderResult) :
    Except PyError (ManualOutcome × Nat) :=
  match floatIssue r.issue_price with
  | .error e => .error e
  | .ok issueF =>
    match resolveLtpManual r provider with
    | .error e => .error e
    | .ok (none, c) => .ok (.skippedNoLtp, c)
    | .ok (some l, c) =>
      match issueF with
      | none => .ok (.evaluatedNaN, c)
      | some i =>
        if i = 0 then .error .zeroDivisionError
        else
          let gain := (l - i) / i * 100
          .ok (.evaluated gain (decide (minGain ≤ gain ∧ gain ≤ maxGain)), c)

/-- A sample record used by concrete witnesses: issue 100, test_ltp 110,
listing today (day code 0). -/
def sampleRec : Rec :=
  ⟨"AAA", "NSE", some (.num 100), some 0, some 110⟩

/-- A record with issue price exactly zero and a test LTP of 110. -/
def recZero : Rec :=
  ⟨"ZRO", "NSE", some (.num 0), some 0, some 110⟩

/-- A record with a non-numeric issue price and a test LTP of 110. -/
def recBad : Rec :=
  ⟨"BAD", "NSE", some (.str "na"), some 0, some 110⟩

/-- A record with a missing issue price and a test LTP of 110. -/
def recNoIssue : Rec :=
  ⟨"MIS", "NSE", none, some 0, some 110⟩

/-- C1: for a listing-day record with a positive numeric issue price whose
LTP resolves to any value l ≥ 0, both evaluators compute
gain = (l - issue)/issue * 100 exactly and dispatch a notification iff
MIN_GAIN ≤ gain ≤ MAX_GAIN, with both ends of the band inclusive. -/
theorem C1_gain_band (minG maxG i l : ℚ) (r : Rec) (o1 o2 : Option ℚ)
    (c cm : Nat) (provider : String → ProviderResult)
    (hi : r.issue_price = some (.num i)) (hpos : 0 < i) (hl0 : 0 ≤ l)
    (hl : resolveLtp r o1 o2 = (some l, c))
    (hm : resolveLtpManual r provider = .ok (some l, cm)) :
    evalRecordAuto minG maxG r o1 o2 =
      (.evaluated ((l - i) / i * 100)
        (decide (minG ≤ (l - i) / i * 100 ∧ (l - i) / i * 100 ≤ maxG)), c)
    ∧ evalRecordManual minG maxG r provider =
      .ok (.evaluated ((l - i) / i * 100)
        (decide (minG ≤ (l - i) / i * 100 ∧ (l - i) / i * 100 ≤ maxG)), cm)
    ∧ ((decide (minG ≤ (l - i) / i * 100 ∧ (l - i) / i * 100 ≤ maxG)) = true ↔
        (minG ≤ (l - i) / i * 100 ∧ (l - i) / i * 100 ≤ maxG)) := by
  have hne : i ≠ 0 := ne_of_gt hpos
  refine ⟨?_, ?_, by simp⟩
  · unfold evalRecordAuto
    rw [hl, hi]
    simp [PVal.toNum, hne]
  · unfold evalRecordManual
    rw [hi, hm]
    simp [floatIssue, hne]

/-- C1 witness: issue 100 and test LTP 110 give gain 10, inside the default
band [8, 30], so the notification fires. -/
theorem C1_witness : (evalRecordAuto 8 30 sampleRec none none).1.notified = true := by
  have h := C1_gain_band 8 30 100 110 sampleRec none none 0 0
    (fun _ => ProviderResult.ok []) rfl (by decide) (by decide) rfl rfl
  rw [h.1]
  simp only [AutoOutcome.notified]
  rw [h.2.2]
  norm_num

/-- C2 counterexample: in the manual variant (ipo_alerts.py) a record with
issue price exactly zero makes the evaluation raise an uncaught
ZeroDivisionError, so the claim as stated over both evaluators fails. -/
theorem C2_counterexample :
    evalRecordManual 8 30 recZero (fun _ => .ok []) = .error .zeroDivisionError := rfl

/-- C2 amended: in the auto-fetch pipeline a record with issue price exactly
zero never raises — the ZeroDivisionError is caught, the record is skipped
with a diagnostic (either as LTP-missing or as a calculation error) and no
notification is dispatched; in the manual pipeline the same record, once a
price is available, raises ZeroDivisionError. -/
theorem C2_zero_issue (minG maxG : ℚ) (r : Rec) (o1 o2 : Option ℚ)
    (provider : String → ProviderResult) (l : ℚ) (c : Nat)
    (hi : r.issue_price = some (.num 0)) :
    ((evalRecordAuto minG maxG r o1 o2).1 = .skippedNoLtp ∨
      (evalRecordAuto minG maxG r o1 o2).1 = .calcError)
    ∧ (evalRecordAuto minG maxG r o1 o2).1.notified = false
    ∧ (resolveLtpManual r provider = .ok (some l, c) →
        evalRecordManual minG maxG r provider = .error .zeroDivisionError) := by
  refine ⟨?_, ?_, ?_⟩
  · rcases hr : resolveLtp r o1 o2 with ⟨lo, cc⟩
    unfold evalRecordAuto
    rw [hr]
    cases lo <;> simp [hi, PVal.toNum]
  · rcases hr : resolveLtp r o1 o2 with ⟨lo, cc⟩
    unfold evalRecordAuto
    rw [hr]
    cases lo <;> simp [hi, PVal.toNum, AutoOutcome.notified]
  · intro hm
    unfold evalRecordManual
    rw [hi, hm]
    simp [floatIssue]

/-- C2 witness: the zero-issue record is not notified by the auto evaluator
and raises in the manual one. -/
theorem C2_witness :
    (evalRecordAuto 8 30 recZero none none).1.notified = false
    ∧ evalRecordManual 8 30 recZero (fun _ => ProviderResult.ok []) =
      .error .zeroDivisionError := by
  have h := C2_zero_issue 8 30 recZero none none (fun _ => ProviderResult.ok [])
    110 0 rfl
  exact ⟨h.2.1, h.2.2 rfl⟩

/-- C3: collect_ipos tries the tiers in fixed priority order — a configured
FMP key with a non-empty result stops everything else; an empty first tier
followed by a configured Finnhub key with a non-empty result stops the
scrapers; only when both API tiers yield nothing do both scrapers run, with
their outputs concatenated. -/
theorem C3_priority (fk hk : Bool) (fr hr nr br : List Rec) :
    (fk = true → fr ≠ [] →
      collect_ipos fk hk fr hr nr br = (normalize fr, ⟨true, false, false, false⟩))
    ∧ ((fk = true → fr = []) → hk = true → hr ≠ [] →
      collect_ipos fk hk fr hr nr br = (normalize hr, ⟨fk, true, false, false⟩))
    ∧ ((fk = true → fr = []) → (hk = true → hr = []) →
      collect_ipos fk hk fr hr nr br = (normalize (nr ++ br), ⟨fk, hk, true, true⟩)) := by
  refine ⟨?_, ?_, ?_⟩
  · intro hfk hfr
    subst hfk
    simp [collect_ipos, List.isEmpty_iff, hfr]
  · intro h1 hhk hhr
    subst hhk
    cases fk with
    | false => simp [collect_ipos, List.isEmpty_iff, hhr]
    | true => simp [collect_ipos, h1 rfl, List.isEmpty_iff, hhr]
  · intro h1 h2
    cases fk with
    | false =>
      cases hk with
      | false => simp [collect_ipos]
      | true => simp [collect_ipos, h2 rfl]
    | true =>
      cases hk with
      | false => simp [collect_ipos, h1 rfl]
      | true => simp [collect_ipos, h1 rfl, h2 rfl]

/-- C3 witness: the three tiers exercised on concrete inputs. -/
theorem C3_witness :
    collect_ipos true true [sampleRec] [recZero] [] [] =
      (normalize [sampleRec], ⟨true, false, false, false⟩)
    ∧ collect_ipos true true [] [recZero] [] [] =
      (normalize [recZero], ⟨true, true, false, false⟩)
    ∧ collect_ipos false false [] [] [sampleRec] [recZero] =
      (normalize ([sampleRec] ++ [recZero]), ⟨false, false, true, true⟩) := by
  refine ⟨(C3_priority true true [sampleRec] [recZero] [] []).1 rfl (by simp),
    (C3_priority true true [] [recZero] [] []).2.1 (fun _ => rfl) rfl (by simp),
    (C3_priority false false [] [] [sampleRec] [recZero]).2.2 (by simp) (by simp)⟩

/-- C4: an empty normalized collection leaves the prior ipos.csv contents
unchanged with no write performed; a non-empty one overwrites the file. -/
theorem C4_save (df : List Rec) (prior : Option (List Rec)) :
    (df = [] → saveStep df prior = (prior, false))
    ∧ (df ≠ [] → saveStep df prior = (some df, true)) := by
  constructor
  · intro h
    subst h
    rfl
  · intro h
    simp [saveStep, h]

/-- C4 witness: a pre-existing file survives an empty run untouched and is
overwritten by a non-empty one. -/
theorem C4_witness :
    saveStep [] (some [sampleRec]) = (some [sampleRec], false)
    ∧ saveStep [sampleRec] (some []) = (some [sampleRec], true) :=
  ⟨(C4_save [] (some [sampleRec])).1 rfl,
    (C4_save [sampleRec] (some [])).2 (by simp)⟩

/-- C5: both API adapters with an absent (or empty) key return empty with no
network call; on upstream failure every adapter returns empty — they are
total functions, so no upstream outcome can raise past their boundary. -/
theorem C5_adapters (key : Option String) (u : ApiUpstream)
    (parseDate : String → Option Nat) :
    (truthy key = false →
      fetch_fmp_ipos key u = ([], 0) ∧ fetch_finnhub_ipos key u = ([], 0))
    ∧ (fetch_fmp_ipos key .failure).1 = []
    ∧ (fetch_finnhub_ipos key .failure).1 = []
    ∧ scrape_nse_upcoming parseDate .failure = []
    ∧ scrape_bse_public_issues parseDate .failure = [] := by
  refine ⟨?_, ?_, ?_, rfl, rfl⟩
  · intro h
    simp [fetch_fmp_ipos, fetch_finnhub_ipos, h]
  · by_cases h : truthy key <;> simp [fetch_fmp_ipos, h]
  · by_cases h : truthy key <;> simp [fetch_finnhub_ipos, h]

/-- C5 witness: with no key configured, both API adapters return empty and
make zero network calls even when the upstream would fail. -/
theorem C5_witness :
    fetch_fmp_ipos none .failure = ([], 0)
    ∧ fetch_finnhub_ipos none .failure = ([], 0) :=
  (C5_adapters none .failure (fun _ => none)).1 rfl

/-- C6 counterexample: in the manual variant (ipo_alerts.py) get_ltp has no
try/except, so a provider failure escapes as an exception instead of
returning None, refuting the claim as stated over both lookups. -/
theorem C6_counterexample :
    get_ltp_manual "X" "NSE" (fun _ => ProviderResult.failure) =
      .error .providerError := rfl

/-- C6 amended: both variants suffix NSE symbols with ".NS", BSE symbols
with ".BO" and leave any other exchange's symbol unchanged; the auto-fetch
variant never raises, returning None on provider failure and reading the
last close otherwise; the manual variant still returns None on absent data
but propagates provider failures. -/
theorem C6_ticker_no_raise (sym exch : String)
    (provider : String → ProviderResult) :
    mapTicker sym "NSE" = sym ++ ".NS"
    ∧ mapTicker sym "BSE" = sym ++ ".BO"
    ∧ (pyUpper exch ≠ "NSE" → pyUpper exch ≠ "BSE" → mapTicker sym exch = sym)
    ∧ get_ltp_auto sym exch (fun _ => ProviderResult.failure) = none
    ∧ (∀ h : List ℚ, provider (mapTicker sym exch) = .ok h →
        get_ltp_auto sym exch provider = h.getLast?)
    ∧ get_ltp_manual sym exch (fun _ => ProviderResult.ok []) = .ok none := by
  have h1 : pyUpper "NSE" = "NSE" := by decide
  have h2 : pyUpper "BSE" = "BSE" := by decide
  have h3 : ("BSE" : String) ≠ "NSE" := by decide
  refine ⟨by simp [mapTicker, h1], by simp [mapTicker, h2, h3], ?_, rfl, ?_, rfl⟩
  · intro hn hb
    simp [mapTicker, hn, hb]
  · intro h hp
    unfold get_ltp_auto
    rw [hp]

/-- C6 witness: concrete suffixing for NSE, pass-through for an unknown
exchange, and a successful last-close read. -/
theorem C6_witness :
    mapTicker "TCS" "NSE" = "TCS" ++ ".NS"
    ∧ mapTicker "TCS" "nyse" = "TCS"
    ∧ get_ltp_auto "TCS" "NSE" (fun _ => ProviderResult.ok [101]) = some 101 := by
  have ha := C6_ticker_no_raise "TCS" "NSE" (fun _ => ProviderResult.ok [101])
  have hb := C6_ticker_no_raise "TCS" "nyse" (fun _ => ProviderResult.ok [101])
  exact ⟨ha.1, hb.2.2.1 (by decide) (by decide),
    (ha.2.2.2.2.1 [101] rfl).trans rfl⟩

/-- C7 counterexample: in the manual variant (ipo_alerts.py) a non-numeric
issue price makes `float` raise an uncaught ValueError, refuting the claim
as stated over both evaluators. -/
theorem C7_counterexample :
    evalRecordManual 8 30 recBad (fun _ => .ok []) = .error .valueError := rfl

/-- C7 amended: in the auto-fetch pipeline a record with a missing or
non-numeric issue price is always skipped with a diagnostic (possibly after
the LTP-missing skip), no notification is dispatched for it, and nothing is
raised; in the manual pipeline a non-numeric issue price raises. -/
theorem C7_missing_issue (minG maxG : ℚ) (r : Rec) (o1 o2 : Option ℚ)
    (hi : r.issue_price = none ∨ (∃ s, r.issue_price = some (.str s))) :
    ((evalRecordAuto minG maxG r o1 o2).1 = .skippedNoLtp ∨
      (evalRecordAuto minG maxG r o1 o2).1 = .skippedNoIssue ∨
      (evalRecordAuto minG maxG r o1 o2).1 = .calcError)
    ∧ (evalRecordAuto minG maxG r o1 o2).1.notified = false := by
  rcases hr : resolveLtp r o1 o2 with ⟨lo, c⟩
  unfold evalRecordAuto
  rw [hr]
  cases lo with
  | none => simp [AutoOutcome.notified]
  | some l =>
    rcases hi with hi | ⟨s, hi⟩ <;>
      rw [hi] <;> simp [PVal.toNum, AutoOutcome.notified]

/-- C7 witness: a record with a missing issue price is skipped by the auto
evaluator with no notification. -/
theorem C7_witness :
    (evalRecordAuto 8 30 recNoIssue none none).1 = .skippedNoIssue
    ∧ (evalRecordAuto 8 30 recNoIssue none none).1.notified = false := by
  have h := C7_missing_issue 8 30 recNoIssue none none (Or.inl rfl)
  exact ⟨rfl, h.2⟩

/-- C8: a record with a present (non-NaN) test_ltp uses that value verbatim
as the last traded price in both variants, and the evaluation performs zero
live price-provider calls for that record. -/
theorem C8_test_override (minG maxG : ℚ) (r : Rec) (v : ℚ)
    (o1 o2 : Option ℚ) (provider : String → ProviderResult)
    (hv : r.test_ltp = some v) :
    resolveLtp r o1 o2 = (some v, 0)
    ∧ (evalRecordAuto minG maxG r o1 o2).2 = 0
    ∧ resolveLtpManual r provider = .ok (some v, 0) := by
  have h1 : resolveLtp r o1 o2 = (some v, 0) := by
    unfold resolveLtp
    rw [hv]
  refine ⟨h1, ?_, ?_⟩
  · unfold evalRecordAuto
    rw [h1]
    rcases r.issue_price with _ | pv
    · rfl
    · rcases pv with q | s
      · by_cases hq : q = 0 <;> simp [PVal.toNum, hq]
      · rfl
  · unfold resolveLtpManual
    rw [hv]

/-- C8 witness: the sample record's test LTP 110 is used with zero provider
calls, even against a provider that would fail. -/
theorem C8_witness :
    resolveLtp sampleRec none none = (some 110, 0)
    ∧ (evalRecordAuto 8 30 sampleRec none none).2 = 0
    ∧ resolveLtpManual sampleRec (fun _ => ProviderResult.failure) =
      .ok (some 110, 0) :=
  C8_test_override 8 30 sampleRec 110 none none (fun _ => ProviderResult.failure) rfl

/-- C9 counterexample: transport status 204 is 2xx-equivalent (204 / 100 = 2)
yet the notifier reports failure, because the source compares the status to
exactly 200 — refuting the claim's "2xx-equivalent" acceptance test. -/
theorem C9_counterexample :
    204 / 100 = 2 ∧ (send_telegram_auto (some "t") (some "c") 204).1 = false := by
  constructor
  · rfl
  · decide

/-- C9 amended: with an absent (or empty) bot token or chat id neither
variant performs a network call and the auto variant reports failure;
otherwise both perform exactly one outbound call and the auto variant
reports success iff the status equals exactly 200 (the manual variant
returns no success indicator at all). -/
theorem C9_notifier (token chat : Option String) (status : Nat) :
    ((truthy token = false ∨ truthy chat = false) →
      send_telegram_auto token chat status = (false, 0)
      ∧ send_telegram_manual token chat = 0)
    ∧ (truthy token = true → truthy chat = true →
      (send_telegram_auto token chat status).2 = 1
      ∧ ((send_telegram_auto token chat status).1 = true ↔ status = 200)
      ∧ send_telegram_manual token chat = 1) := by
  constructor
  · intro h
    rcases h with h | h <;> simp [send_telegram_auto, send_telegram_manual, h]
  · intro h1 h2
    simp [send_telegram_auto, send_telegram_manual, h1, h2]

/-- C9 witness: missing token means no call and failure; with credentials a
200 status reports success. -/
theorem C9_witness :
    (send_telegram_auto none (some "c") 200 = (false, 0)
      ∧ send_telegram_manual none (some "c") = 0)
    ∧ ((send_telegram_auto (some "t") (some "c") 200).1 = true ↔ 200 = 200) := by
  refine ⟨(C9_notifier none (some "c") 200).1 (Or.inl rfl), ?_⟩
  exact ((C9_notifier (some "t") (some "c") 200).2 (by decide) (by decide)).2.1

/-- Every record the BSE row loop emits carries issue_price = None. -/
theorem bseParseRows_issue_none (parseDate : String → Option Nat) :
    ∀ rows recs, bseParseRows parseDate rows = .ok recs →
      ∀ r ∈ recs, r.issue_price = none := by
  intro rows
  induction rows with
  | nil =>
    intro recs h r hr
    simp only [bseParseRows] at h
    cases h
    cases hr
  | cons cols rest ih =>
    intro recs h r hr
    simp only [bseParseRows] at h
    by_cases hc : cols.isEmpty
    · rw [if_pos hc] at h
      exact ih recs h r hr
    · rw [if_neg hc] at h
      rcases hft : firstTok (cols.headD "") with _ | sym
      · rw [hft] at h
        cases h
      · rw [hft] at h
        rcases hrec : bseParseRows parseDate rest with e | recs'
        · rw [hrec] at h
          cases h
        · rw [hrec] at h
          cases h
          rcases List.mem_cons.mp hr with hr2 | hr2
          · subst hr2
            rfl
          · exact ih recs' hrec r hr2

/-- C10: every record either scrape adapter produces has issue_price = None,
and the auto evaluator never dispatches a notification for a record whose
issue_price is None — so a scrape-tier record can never trigger an alert. -/
theorem C10_scrape_never_notifies (parseDate : String → Option Nat)
    (un : NseUpstream) (ub : BseUpstream) (minG maxG : ℚ)
    (o1 o2 : Option ℚ) :
    (∀ r ∈ scrape_nse_upcoming parseDate un, r.issue_price = none)
    ∧ (∀ r ∈ scrape_bse_public_issues parseDate ub, r.issue_price = none)
    ∧ (∀ r : Rec, r.issue_price = none →
        (evalRecordAuto minG maxG r o1 o2).1.notified = false) := by
  refine ⟨?_, ?_, ?_⟩
  · intro r hr
    cases un with
    | failure => cases hr
    | page tbl =>
      cases tbl with
      | none => cases hr
      | some rows =>
        simp only [scrape_nse_upcoming] at hr
        rcases List.mem_filterMap.mp hr with ⟨cols, _, hp⟩
        simp only [nseParseRow] at hp
        by_cases hlen : cols.length < 4
        · rw [if_pos hlen] at hp
          cases hp
        · rw [if_neg hlen] at hp
          cases hp
          rfl
  · intro r hr
    cases ub with
    | failure => cases hr
    | page tables =>
      simp only [scrape_bse_public_issues] at hr
      rcases hrec : bseParseRows parseDate (tables.flatMap (fun t => t.drop 1))
        with e | recs
      · rw [hrec] at hr
        cases hr
      · rw [hrec] at hr
        exact bseParseRows_issue_none parseDate _ recs hrec r hr
  · intro r hi
    rcases hr : resolveLtp r o1 o2 with ⟨lo, c⟩
    unfold evalRecordAuto
    rw [hr]
    cases lo <;> simp [hi, AutoOutcome.notified]

/-- C10 witness: a concrete scraped row yields a record with no issue price,
which the auto evaluator does not notify. -/
theorem C10_witness :
    (⟨"AAA", "NSE", none, some 5, none⟩ : Rec) ∈
      scrape_nse_upcoming (fun _ => some 5)
        (.page (some [["h1", "h2", "h3", "h4"], ["Co", "AAA T", "x", "d"]]))
    ∧ (⟨"AAA", "NSE", none, some 5, none⟩ : Rec).issue_price = none
    ∧ (evalRecordAuto 8 30 ⟨"AAA", "NSE", none, some 5, none⟩ none none).1.notified
        = false := by
  have h := C10_scrape_never_notifies (fun _ => some 5)
    (.page (some [["h1", "h2", "h3", "h4"], ["Co", "AAA T", "x", "d"]]))
    (.page []) 8 30 (none : Option ℚ) none
  have hm : (⟨"AAA", "NSE", none, some 5, none⟩ : Rec) ∈
      scrape_nse_upcoming (fun _ => some 5)
        (.page (some [["h1", "h2", "h3", "h4"], ["Co", "AAA T", "x", "d"]])) := by
    decide
  exact ⟨hm, h.1 _ hm, h.2.2 _ rfl⟩

end IpoAlerts
